import Mathlib

/-!
Verification of the appointment lifecycle workflow of the Aarogya_AI /
TZ25_HAKATHON_MED_TRIAGE repository (src/TZ25_HAKATHON_MED_TRIAGE/app.py).

The embedding models:
  - the token codec wrappers `generate_appointment_token` and
    `verify_appointment_token` (app.py lines 43-52), over a model of the
    external itsdangerous URLSafeTimedSerializer: a token is a signed
    triple of payload, timestamp and signature; `loads` succeeds exactly
    when the recomputed signature matches and the age does not exceed
    max_age (the library contract);
  - the appointment store (one JSON file per id under the appointments
    folder) as an association list with first-match lookup, so that a save
    shadows the previous record (last write wins);
  - `save_appointment_data` (lines 73-82);
  - `send_email_with_attachments` (lines 215-258), with the file system
    modelled as the list of existing paths and the SMTP transaction as an
    `Option String` (`none` means delivery succeeded, `some e` means the
    send raised with message e);
  - the patient notification wrappers (lines 323-366) and the doctor
    request sender (lines 260-321);
  - the scheduling orchestrator `schedule_meet_with_notification`
    (lines 385-458), with the external Google Calendar collaborator
    modelled as `Option (Except String (Option String))`: `none` means
    the integration is unavailable, `some (error e)` means event creation
    raised, `some (ok l)` means the event was created with optional
    hangout link l;
  - the response handler `handle_appointment_response` (lines 655-725).

Side effects (token verification, store reads and writes, email sends,
attachment warnings, calendar calls) are made explicit as an effect trace
returned alongside each result, in source order.
-/

/-- Python dict values for the appointment payload: the fields built by
`send_doctor_appointment_request` (app.py lines 276-288), plus the
`status` and `response_time` keys set by the response handler before
saving. Keys that may be absent from the dict are `Option`s. -/
structure AppointmentData where
  id : Option String
  doctor_email : String
  patient_email : String
  appointment_time : String
  meet_link : String
  doctor_name : String
  doctor_specialization : Option String
  symptom_summary : Option String
  primary_symptoms : Option String
  additional_symptoms : Option String
  symptom_duration : Option String
  status : Option String
  response_time : Option Nat
deriving Repr, DecidableEq

/-- Python truthiness of an optional string: `None` and the empty string
are falsy, every other string is truthy. -/
def pyTruthy : Option String → Bool
  | none => false
  | some s => !s.isEmpty

/-- Model of the signed token produced by the itsdangerous
URLSafeTimedSerializer: either a signed payload with its signing
timestamp and signature, or an arbitrary malformed string. -/
inductive Token where
  | signed (payload : AppointmentData) (timestamp : Nat) (sig : Nat)
  | malformed (raw : String)
deriving Repr, DecidableEq

/-- Numeric code of a string, used by the modelled signature. -/
def strCode (s : String) : Nat :=
  s.data.foldl (fun a c => a * 131 + c.toNat) 7

/-- Numeric code of a payload, used by the modelled signature. -/
def dataCode (p : AppointmentData) : Nat :=
  strCode ((p.id.getD "") ++ p.doctor_email ++ p.patient_email ++
    p.appointment_time ++ p.meet_link ++ p.doctor_name ++
    (p.doctor_specialization.getD "") ++ (p.symptom_summary.getD "") ++
    (p.primary_symptoms.getD "") ++ (p.additional_symptoms.getD "") ++
    (p.symptom_duration.getD "") ++ (p.status.getD "")) +
  (p.response_time.getD 0)

/-- Modelled message authentication code over secret, payload and
timestamp. The model abstracts the HMAC of the library: the verifier
recomputes it from the secret and compares. -/
def mac (secret : String) (p : AppointmentData) (t : Nat) : Nat :=
  strCode secret * 1048576 + dataCode p * 31 + t

/-- Model of serializer.dumps: sign the payload with the current time. -/
def dumps (secret : String) (p : AppointmentData) (t : Nat) : Token :=
  Token.signed p t (mac secret p t)

/-- Model of serializer.loads with max_age: raises (returns an error)
on a malformed token, a signature mismatch, or an age above max_age;
otherwise returns the payload. -/
def loads (secret : String) (tok : Token) (max_age : Nat) (now : Nat) :
    Except String AppointmentData :=
  match tok with
  | Token.malformed _ => Except.error "BadSignature"
  | Token.signed p t s =>
      if s = mac secret p t then
        if now - t ≤ max_age then Except.ok p
        else Except.error "SignatureExpired"
      else Except.error "BadSignature"

/-- app.py lines 43-45: serializer.dumps on the appointment data, at the
current time `now`. -/
def generate_appointment_token (secret : String) (appointment_data : AppointmentData)
    (now : Nat) : Token :=
  dumps secret appointment_data now

/-- app.py lines 47-52: try serializer.loads with max_age; any exception
is caught and `None` is returned. The source default for max_age is
3600; every call site in the handler uses that default. -/
def verify_appointment_token (secret : String) (tok : Token) (max_age : Nat)
    (now : Nat) : Option AppointmentData :=
  match loads secret tok max_age now with
  | Except.ok d => some d
  | Except.error _ => none

/-- The appointments folder: one record per appointment id. Lookup takes
the first match, and a save conses a fresh pair, so the newest record for
an id shadows older ones (overwrite, last write wins). -/
abbrev Store := List (String × AppointmentData)

/-- Read the record file for an id, if it exists. -/
def storeLoad : Store → String → Option AppointmentData
  | [], _ => none
  | (k, r) :: rest, q => if k = q then some r else storeLoad rest q

/-- app.py lines 73-82: save the appointment data keyed by its id;
returns False without writing when the id is absent or falsy. The
returned pair is the updated store and the Python return value. -/
def save_appointment_data (store : Store) (appointment_data : AppointmentData) :
    Store × Bool :=
  match appointment_data.id with
  | none => (store, false)
  | some i => if i.isEmpty then (store, false) else ((i, appointment_data) :: store, true)

/-- Side effects performed by the workflow, in source order: a token
verification attempt, a read of the appointment store, a write to the
appointment store, an SMTP send to a recipient, a logged warning for a
missing attachment, a file attached to the outgoing message, and an
attempted calendar event insertion. -/
inductive Effect where
  | tokenVerify
  | storeRead
  | storeWrite
  | emailSend (recipient : String)
  | warnMissing (path : Option String)
  | attached (filename : String)
  | calendarInsert
deriving Repr, DecidableEq

/-- Result dict of the notification dispatcher. -/
structure EmailResult where
  success : Bool
  message : String
deriving Repr, DecidableEq

/-- One attachment descriptor: a dict with optional path and optional
declared filename keys. -/
structure Attachment where
  path : Option String
  filename : Option String
deriving Repr, DecidableEq

/-- Model of os.path.basename: the part after the last slash. -/
def basename (p : String) : String :=
  (p.splitOn "/").getLastD ""

/-- app.py line 232: the declared filename, or the basename of the path
when the declared one is absent or falsy. -/
def declaredName (a : Attachment) (p : String) : String :=
  match a.filename with
  | none => basename p
  | some f => if f.isEmpty then basename p else f

/-- app.py lines 226-245, the attachment loop: an attachment whose path
is absent, falsy, or not on disk is skipped with a logged warning;
otherwise its content is attached under its declared filename. The file
system is the list of existing paths. -/
def processAttachments (fs : List String) : List Attachment → List Effect
  | [] => []
  | a :: rest =>
      match a.path with
      | none => Effect.warnMissing none :: processAttachments fs rest
      | some p =>
          if p.isEmpty || !(fs.contains p) then
            Effect.warnMissing (some p) :: processAttachments fs rest
          else
            Effect.attached (declaredName a p) :: processAttachments fs rest

/-- The effect one attachment contributes: a warning when its path is
absent, falsy, or not on disk, an attach otherwise. -/
def attachmentStep (fs : List String) (a : Attachment) : Effect :=
  match a.path with
  | none => Effect.warnMissing none
  | some p =>
      if p.isEmpty || !(fs.contains p) then Effect.warnMissing (some p)
      else Effect.attached (declaredName a p)

/-- The skip condition of the attachment loop (app.py line 228): the
path key is absent, falsy, or names no existing file. -/
def attachmentMissing (fs : List String) (a : Attachment) : Bool :=
  match a.path with
  | none => true
  | some p => p.isEmpty || !(fs.contains p)

/-- app.py line 37: sender address (environment default). -/
def EMAIL_SENDER : String := "likhith.b.polavaram@gmail.com"

/-- app.py line 38: sender credential (environment default). -/
def EMAIL_PASSWORD : String := "yeqh udvd pvra ptxs"

/-- app.py lines 215-258: build the message, attach every attachment
whose file exists (skipping missing ones with a warning), then hand the
message to SMTP. `smtp` is `none` when the SMTP transaction succeeds and
`some e` when it raises with message e; the whole body runs in a
try/except, so a transport failure is reported as success False, never
raised past the boundary. -/
def send_email_with_attachments (fs : List String) (smtp : Option String)
    (sender_email sender_password recipient_email subject body : String)
    (attachment_list : Option (List Attachment)) : EmailResult × List Effect :=
  let attEffs : List Effect :=
    match attachment_list with
    | none => []
    | some l => processAttachments fs l
  match smtp with
  | none =>
      ({ success := true, message := "Email sent to " ++ recipient_email },
       attEffs ++ [Effect.emailSend recipient_email])
  | some e =>
      ({ success := false, message := "Failed to send email: " ++ e },
       attEffs ++ [Effect.emailSend recipient_email])

/-- Model of render_template on email_patient.html: template rendering
is presentation glue outside the workflow; the rendered body is an
opaque string of the template inputs. -/
def renderPatientTemplate (doctor_name : String) (doctor_specialization : Option String)
    (scheduled_time : String) (meet_link : Option String) (state : String) : String :=
  "email_patient.html/" ++ state ++ "/" ++ doctor_name ++ "/" ++
    (doctor_specialization.getD "") ++ "/" ++ scheduled_time ++ "/" ++
    (meet_link.getD "")

/-- app.py lines 323-344: render the acceptance template and send it to
the patient with subject Appointment Confirmed with the doctor name. -/
def send_patient_confirmation_email (smtp : Option String)
    (patient_email doctor_name scheduled_time meet_link : String)
    (doctor_specialization : Option String) : EmailResult × List Effect :=
  let email_body := renderPatientTemplate doctor_name doctor_specialization
    scheduled_time (some meet_link) "accepted"
  send_email_with_attachments [] smtp EMAIL_SENDER EMAIL_PASSWORD patient_email
    ("Appointment Confirmed with " ++ doctor_name) email_body none

/-- app.py lines 346-366: render the rejection template and send it to
the patient with subject Appointment Update from the doctor name. -/
def send_patient_rejection_email (smtp : Option String)
    (patient_email doctor_name scheduled_time : String)
    (doctor_specialization : Option String) : EmailResult × List Effect :=
  let email_body := renderPatientTemplate doctor_name doctor_specialization
    scheduled_time none "rejected"
  send_email_with_attachments [] smtp EMAIL_SENDER EMAIL_PASSWORD patient_email
    ("Appointment Update from " ++ doctor_name) email_body none

/-- One entry of the static doctor directory: the fields the workflow
reads (id, name, specialization, email). -/
structure Doctor where
  id : String
  name : String
  specialization : String
  email : String
deriving Repr, DecidableEq

/-- app.py lines 85-206: the static doctor directory (workflow fields
only; every entry shares the same placeholder email in the source). -/
def DOCTORS : List Doctor :=
  [⟨"1", "Dr. Priya Sharma", "Gastroenterologist", "likhith.b.polavaram@gmail.com"⟩,
   ⟨"2", "Dr. Arjun Reddy", "Cardiologist", "likhith.b.polavaram@gmail.com"⟩,
   ⟨"3", "Dr. Kavitha Menon", "Dermatologist", "likhith.b.polavaram@gmail.com"⟩,
   ⟨"4", "Dr. Rajesh Kumar", "Neurologist", "likhith.b.polavaram@gmail.com"⟩,
   ⟨"5", "Dr. Anjali Gupta", "Psychiatrist", "likhith.b.polavaram@gmail.com"⟩,
   ⟨"6", "Dr. Suresh Iyer", "Orthopedic Surgeon", "likhith.b.polavaram@gmail.com"⟩,
   ⟨"7", "Dr. Meera Patel", "Pediatrician", "likhith.b.polavaram@gmail.com"⟩,
   ⟨"8", "Dr. Vikram Singh", "Urologist", "likhith.b.polavaram@gmail.com"⟩,
   ⟨"9", "Dr. Lakshmi Rao", "Gynecologist", "likhith.b.polavaram@gmail.com"⟩,
   ⟨"10", "Dr. Amit Joshi", "Ophthalmologist", "likhith.b.polavaram@gmail.com"⟩,
   ⟨"11", "Dr. Deepika Nair", "Endocrinologist", "likhith.b.polavaram@gmail.com"⟩,
   ⟨"12", "Dr. Ravi Agarwal", "Pulmonologist", "likhith.b.polavaram@gmail.com"⟩,
   ⟨"13", "Dr. Sushma Bhatt", "Rheumatologist", "likhith.b.polavaram@gmail.com"⟩,
   ⟨"14", "Dr. Karthik Krishnamurthy", "Oncologist", "likhith.b.polavaram@gmail.com"⟩,
   ⟨"15", "Dr. Sunita Mishra", "Nephrologist", "likhith.b.polavaram@gmail.com"⟩,
   ⟨"16", "Dr. Harish Chandra", "ENT Specialist", "likhith.b.polavaram@gmail.com"⟩,
   ⟨"17", "Dr. Preeti Desai", "Hematologist", "likhith.b.polavaram@gmail.com"⟩,
   ⟨"18", "Dr. Manoj Tripathi", "Anesthesiologist", "likhith.b.polavaram@gmail.com"⟩,
   ⟨"19", "Dr. Radha Venkatesh", "Radiologist", "likhith.b.polavaram@gmail.com"⟩,
   ⟨"20", "Dr. Ashok Bansal", "General Physician", "likhith.b.polavaram@gmail.com"⟩]

/-- app.py line 273: the appointment id, the truncated md5 digest of the
participant addresses, the slot, and the clock. The model abstracts the
digest as a deterministic code of the same inputs. -/
def mkAppointmentId (doctor_email patient_email scheduled_time : String)
    (now : Nat) : String :=
  toString (strCode (doctor_email ++ patient_email ++ scheduled_time) + now)

/-- Model of the markdown-to-HTML conversion (external library,
formatting glue): the text passes through. -/
def markdownRender (s : String) : String := s

/-- app.py lines 260-321: look the doctor up by email (reject with
Doctor not found when absent), build the payload dict with a fresh id,
sign it into a token, render the request template, and send the email to
the doctor with the attachments. No write to the appointment store
happens here; the token is the only carrier of the payload. -/
def send_doctor_appointment_request (secret : String) (fs : List String)
    (smtp : Option String) (now : Nat)
    (doctor_email patient_email scheduled_time symptom_summary meet_link : String)
    (attachments : Option (List Attachment))
    (primary_symptoms additional_symptoms symptom_duration : Option String) :
    EmailResult × List Effect :=
  match DOCTORS.find? (fun d => d.email = doctor_email) with
  | none => ({ success := false, message := "Doctor not found" }, [])
  | some doctor_info =>
      let appointment_id := mkAppointmentId doctor_email patient_email scheduled_time now
      let appointment_data : AppointmentData :=
        { id := some appointment_id
          doctor_email := doctor_email
          patient_email := patient_email
          appointment_time := scheduled_time
          meet_link := meet_link
          doctor_name := doctor_info.name
          doctor_specialization := some doctor_info.specialization
          symptom_summary := some symptom_summary
          primary_symptoms := primary_symptoms
          additional_symptoms := additional_symptoms
          symptom_duration := symptom_duration
          status := none
          response_time := none }
      let _token := generate_appointment_token secret appointment_data now
      let email_body := "email_doctor.html/" ++ patient_email ++ "/" ++ scheduled_time
      send_email_with_attachments fs smtp EMAIL_SENDER EMAIL_PASSWORD doctor_email
        "New Patient Appointment Request" email_body attachments

/-- Result dict of the scheduling orchestrator. -/
structure ScheduleResult where
  success : Bool
  meet_link : String
  message : String
deriving Repr, DecidableEq

/-- app.py lines 385-458: attempt the external calendar event, falling
back to the fixed mock link; then notify the doctor. The calendar
collaborator is `none` when the integration is unavailable (no service),
`some (error e)` when event creation raises, and `some (ok l)` when the
event is created with optional hangout link l. calendar_success starts
True and is set to False only in the except branch of the insert; the
unavailable branch leaves it True. The patient is not notified here. -/
def schedule_meet_with_notification
    (service : Option (Except String (Option String)))
    (secret : String) (fs : List String) (smtp : Option String) (now : Nat)
    (scheduled_time doctor_email patient_email : String)
    (description : String) (attachments : Option (List Attachment)) :
    ScheduleResult × List Effect :=
  let default_link := "https://meet.google.com/abc-defg-hij"
  let cal : Bool × String × List Effect :=
    match service with
    | none => (true, default_link, [])
    | some (Except.error _) => (false, default_link, [Effect.calendarInsert])
    | some (Except.ok l) => (true, l.getD default_link, [Effect.calendarInsert])
  let calendar_success := cal.1
  let meet_link := cal.2.1
  let _doctor_info := (DOCTORS.find? (fun d => d.email = doctor_email)).getD
    ⟨"", "Your Doctor", "Specialist", doctor_email⟩
  let symptom_summary_html := markdownRender description
  let notifyEffs : List Effect :=
    if doctor_email.isEmpty then []
    else
      (send_doctor_appointment_request secret fs smtp now doctor_email patient_email
        scheduled_time symptom_summary_html meet_link attachments
        (some description) none none).2
  ({ success := calendar_success
     meet_link := meet_link
     message := if calendar_success then "Google Meet created successfully"
                else "Failed to create Google Meet, but notifications sent." },
   cal.2.2 ++ notifyEffs)

/-- View rendered by appointment_response.html: the status keyword and
the optional appointment record and message passed to render_template in
the handler. -/
structure View where
  status : String
  appointment : Option AppointmentData
  message : Option String
deriving Repr, DecidableEq

/-- app.py lines 655-725, the response handler: reject an action outside
accept/reject before anything else; verify the token (max_age default
3600); when the payload carries a truthy id and a record with a truthy
status already exists, return the already handled view with the stored
record and no write; otherwise set status to the action and
response_time to now, save, notify the patient (confirmation on accept,
rejection otherwise), and return the outcome view whose message reports
whether the patient notification succeeded. Returns the view, the
resulting store, and the effect trace. -/
def handle_appointment_response (secret : String) (store : Store) (tok : Token)
    (action : Option String) (now : Nat) (smtp : Option String) :
    View × Store × List Effect :=
  if action = some "accept" ∨ action = some "reject" then
    match verify_appointment_token secret tok 3600 now with
    | none =>
        ({ status := "error", appointment := none, message := none },
         store, [Effect.tokenVerify])
    | some appointment_data =>
        let readEffs : List Effect :=
          if pyTruthy appointment_data.id then [Effect.storeRead] else []
        let existingHandled : Option AppointmentData :=
          match appointment_data.id with
          | none => none
          | some i =>
              if i.isEmpty then none
              else
                match storeLoad store i with
                | none => none
                | some existing_data =>
                    if pyTruthy existing_data.status then some existing_data else none
        match existingHandled with
        | some existing_data =>
            ({ status := "already_handled", appointment := some existing_data,
               message := none },
             store, Effect.tokenVerify :: readEffs)
        | none =>
            let updated : AppointmentData :=
              { appointment_data with status := action, response_time := some now }
            let saved := save_appointment_data store updated
            let writeEffs : List Effect := if saved.2 then [Effect.storeWrite] else []
            let sent : EmailResult × List Effect :=
              if action = some "accept" then
                send_patient_confirmation_email smtp updated.patient_email
                  updated.doctor_name updated.appointment_time updated.meet_link
                  updated.doctor_specialization
              else
                send_patient_rejection_email smtp updated.patient_email
                  updated.doctor_name updated.appointment_time
                  updated.doctor_specialization
            let message : String :=
              if action = some "accept" then
                if sent.1.success then
                  "Appointment accepted successfully! Patient has been notified via email."
                else
                  "Appointment accepted, but failed to notify patient: " ++ sent.1.message
              else
                if sent.1.success then
                  "Appointment declined. Patient has been notified via email."
                else
                  "Appointment declined, but failed to notify patient: " ++ sent.1.message
            ({ status := if action = some "accept" then "accepted" else "rejected",
               appointment := some updated, message := some message },
             saved.1, Effect.tokenVerify :: readEffs ++ writeEffs ++ sent.2)
  else
    ({ status := "error", appointment := none, message := none }, store, [])

/-- A concrete appointment payload used by the closed witness and
counterexample theorems. -/
def sampleData : AppointmentData :=
  { id := some "abc123def456"
    doctor_email := "likhith.b.polavaram@gmail.com"
    patient_email := "patient@example.com"
    appointment_time := "2025-01-01 10:00"
    meet_link := "https://meet.google.com/abc-defg-hij"
    doctor_name := "Dr. Priya Sharma"
    doctor_specialization := some "Gastroenterologist"
    symptom_summary := some "stomach pain"
    primary_symptoms := some "stomach pain"
    additional_symptoms := none
    symptom_duration := none
    status := none
    response_time := none }

/-- A token generated at time t with a given secret verifies to its
payload whenever the elapsed time does not exceed max_age. -/
theorem verify_generate_of_age_le (secret : String) (p : AppointmentData)
    (t max_age now : Nat) (h : now - t ≤ max_age) :
    verify_appointment_token secret (generate_appointment_token secret p t)
      max_age now = some p := by
  simp [verify_appointment_token, generate_appointment_token, dumps, loads, h]

/-- C2: for every payload P encoded into an appointment token with the
process signing secret, decoding that token with the same secret before
max_age seconds have elapsed since encoding returns exactly P. -/
theorem token_roundtrip_before_expiry (secret : String) (p : AppointmentData)
    (t now max_age : Nat) (h : now - t < max_age) :
    verify_appointment_token secret (generate_appointment_token secret p t)
      max_age now = some p :=
  verify_generate_of_age_le secret p t max_age now (Nat.le_of_lt h)

/-- Witness for C2 at a concrete payload, secret and clock. -/
theorem token_roundtrip_before_expiry_witness :
    verify_appointment_token "hackwave2025"
      (generate_appointment_token "hackwave2025" sampleData 0) 3600 100 =
      some sampleData :=
  token_roundtrip_before_expiry "hackwave2025" sampleData 0 100 3600 (by decide)

/-- C3: token verification is total (it returns an Option, catching
every decode exception) and returns the payload exactly when the token
is a well signed one whose age is within max_age — so it returns none
precisely when the token is malformed, the signature does not match, or
the age exceeds max_age; in particular every encoded token verifies to
none once its age exceeds the default 3600 seconds. -/
theorem token_verification_invalid_iff :
    (∀ (secret : String) (tok : Token) (max_age now : Nat) (p : AppointmentData),
        verify_appointment_token secret tok max_age now = some p ↔
          ∃ t, tok = Token.signed p t (mac secret p t) ∧ now - t ≤ max_age) ∧
    (∀ (secret : String) (p : AppointmentData) (t now : Nat),
        3600 < now - t →
        verify_appointment_token secret (generate_appointment_token secret p t)
          3600 now = none) := by
  constructor
  · intro secret tok max_age now p
    constructor
    · intro h
      cases tok with
      | malformed r => simp [verify_appointment_token, loads] at h
      | signed q t s =>
          by_cases hs : s = mac secret q t
          · subst hs
            by_cases ha : now - t ≤ max_age
            · simp [verify_appointment_token, loads, ha] at h
              exact ⟨t, by rw [h], ha⟩
            · simp [verify_appointment_token, loads, ha] at h
          · simp [verify_appointment_token, loads, hs] at h
    · rintro ⟨t, rfl, ht⟩
      simp [verify_appointment_token, loads, ht]
  · intro secret p t now h
    have hn : ¬ (now - t ≤ 3600) := by omega
    simp [verify_appointment_token, generate_appointment_token, dumps, loads, hn]

/-- Witness for C3: a token signed at time 0 is invalid at time 4000. -/
theorem token_verification_invalid_iff_witness :
    verify_appointment_token "hackwave2025"
      (generate_appointment_token "hackwave2025" sampleData 0) 3600 4000 = none :=
  token_verification_invalid_iff.2 "hackwave2025" sampleData 0 4000 (by decide)

/-- C4: a response request whose action is not exactly accept or reject
is rejected before any token verification and before any store access:
the handler returns the error view, the store is unchanged, and the
effect trace is empty. -/
theorem invalid_action_rejected_first (secret : String) (store : Store)
    (tok : Token) (action : Option String) (now : Nat) (smtp : Option String)
    (h : ¬ (action = some "accept" ∨ action = some "reject")) :
    handle_appointment_response secret store tok action now smtp =
      ({ status := "error", appointment := none, message := none }, store, []) := by
  simp [handle_appointment_response, h]

/-- Witness for C4 at the concrete action confirm. -/
theorem invalid_action_rejected_first_witness :
    handle_appointment_response "hackwave2025" []
      (generate_appointment_token "hackwave2025" sampleData 0)
      (some "confirm") 0 none =
      ({ status := "error", appointment := none, message := none }, [], []) :=
  invalid_action_rejected_first "hackwave2025" []
    (generate_appointment_token "hackwave2025" sampleData 0)
    (some "confirm") 0 none (by decide)

/-- When the token is valid, the id is truthy, and a record with a
truthy status is already stored for it, the handler returns the already
handled view with the stored record and leaves the store unchanged. -/
theorem handler_already_run (secret : String) (store : Store) (p r : AppointmentData)
    (i : String) (t now : Nat) (smtp : Option String) (a : String)
    (hid : p.id = some i) (hne : i.isEmpty = false)
    (hload : storeLoad store i = some r) (hstat : pyTruthy r.status = true)
    (ha : a = "accept" ∨ a = "reject") (hage : now - t ≤ 3600) :
    handle_appointment_response secret store
      (generate_appointment_token secret p t) (some a) now smtp =
      ({ status := "already_handled", appointment := some r, message := none },
       store, [Effect.tokenVerify, Effect.storeRead]) := by
  have hver := verify_generate_of_age_le secret p t 3600 now hage
  have hptid : pyTruthy p.id = true := by simp [pyTruthy, hid, hne]
  have hpti : pyTruthy (some i) = true := by simp [pyTruthy, hne]
  rcases ha with ha | ha <;> subst ha <;>
    simp +decide [handle_appointment_response, hver, hid, hne, hload, hstat, hptid,
      hpti]

/-- When the token is valid, the id is truthy, and no record is stored
for it, the handler appends the updated record to the store. -/
theorem handler_fresh_store (secret : String) (store : Store) (p : AppointmentData)
    (i : String) (t now : Nat) (smtp : Option String) (a : String)
    (hid : p.id = some i) (hne : i.isEmpty = false)
    (hfresh : storeLoad store i = none)
    (ha : a = "accept" ∨ a = "reject") (hage : now - t ≤ 3600) :
    (handle_appointment_response secret store
      (generate_appointment_token secret p t) (some a) now smtp).2.1 =
      (i, { p with status := some a, response_time := some now }) :: store := by
  have hver := verify_generate_of_age_le secret p t 3600 now hage
  have hptid : pyTruthy p.id = true := by simp [pyTruthy, hid, hne]
  have hpti : pyTruthy (some i) = true := by simp [pyTruthy, hne]
  rcases ha with ha | ha <;> subst ha <;>
    simp +decide [handle_appointment_response, hver, hid, hne, hfresh, hptid, hpti,
      save_appointment_data]

/-- When the token is valid, the id is truthy, and the stored record has
a falsy status, the handler overwrites it with the updated record. -/
theorem handler_overwrite_store (secret : String) (store : Store)
    (p r : AppointmentData) (i : String) (t now : Nat) (smtp : Option String)
    (a : String)
    (hid : p.id = some i) (hne : i.isEmpty = false)
    (hload : storeLoad store i = some r) (hstat : pyTruthy r.status = false)
    (ha : a = "accept" ∨ a = "reject") (hage : now - t ≤ 3600) :
    (handle_appointment_response secret store
      (generate_appointment_token secret p t) (some a) now smtp).2.1 =
      (i, { p with status := some a, response_time := some now }) :: store := by
  have hver := verify_generate_of_age_le secret p t 3600 now hage
  have hptid : pyTruthy p.id = true := by simp [pyTruthy, hid, hne]
  have hpti : pyTruthy (some i) = true := by simp [pyTruthy, hne]
  rcases ha with ha | ha <;> subst ha <;>
    simp +decide [handle_appointment_response, hver, hid, hne, hload, hstat, hptid,
      hpti, save_appointment_data]

/-- C1: for every appointment id, at most one response transitions
state: after a first valid response has created the stored record,
handling a second response carrying the same token, with either action,
returns the already handled view and leaves the stored status at the
first transition. -/
theorem response_idempotent_once_recorded (secret : String) (p : AppointmentData)
    (i : String) (t now1 now2 : Nat) (store : Store) (a1 a2 : String)
    (smtp1 smtp2 : Option String)
    (hid : p.id = some i) (hne : i.isEmpty = false)
    (hfresh : storeLoad store i = none)
    (ha1 : a1 = "accept" ∨ a1 = "reject") (ha2 : a2 = "accept" ∨ a2 = "reject")
    (h1 : now1 - t ≤ 3600) (h2 : now2 - t ≤ 3600) :
    let tok := generate_appointment_token secret p t
    let first := handle_appointment_response secret store tok (some a1) now1 smtp1
    let second := handle_appointment_response secret first.2.1 tok (some a2) now2 smtp2
    storeLoad first.2.1 i =
      some { p with status := some a1, response_time := some now1 } ∧
    second.1.status = "already_handled" ∧
    second.1.appointment =
      some { p with status := some a1, response_time := some now1 } ∧
    second.2.1 = first.2.1 ∧
    storeLoad second.2.1 i =
      some { p with status := some a1, response_time := some now1 } := by
  intro tok first second
  have hs1 : first.2.1 =
      (i, { p with status := some a1, response_time := some now1 }) :: store :=
    handler_fresh_store secret store p i t now1 smtp1 a1 hid hne hfresh ha1 h1
  have hload2 : storeLoad first.2.1 i =
      some { p with status := some a1, response_time := some now1 } := by
    rw [hs1]; simp [storeLoad]
  have hstat : pyTruthy ({ p with status := some a1, response_time := some now1 } :
      AppointmentData).status = true := by
    rcases ha1 with h | h <;> subst h <;> simp +decide [pyTruthy]
  have hsecond := handler_already_run secret first.2.1 p
    { p with status := some a1, response_time := some now1 } i t now2 smtp2 a2
    hid hne hload2 hstat ha2 h2
  refine ⟨hload2, ?_, ?_, ?_, ?_⟩
  · rw [show second = _ from hsecond]
  · rw [show second = _ from hsecond]
  · rw [show second = _ from hsecond]
  · rw [show second = _ from hsecond]; exact hload2

/-- Witness for C1: a first accept at time 5, then a reject with the
same token at time 10, leaves the stored status at accept. -/
theorem response_idempotent_once_recorded_witness :
    storeLoad (handle_appointment_response "hackwave2025"
      ((handle_appointment_response "hackwave2025" []
        (generate_appointment_token "hackwave2025" sampleData 0)
        (some "accept") 5 none).2.1)
      (generate_appointment_token "hackwave2025" sampleData 0)
      (some "reject") 10 none).2.1 "abc123def456" =
      some { sampleData with status := some "accept", response_time := some 5 } :=
  (response_idempotent_once_recorded "hackwave2025" sampleData "abc123def456" 0 5 10
    [] "accept" "reject" none none rfl (by decide) rfl (Or.inl rfl) (Or.inr rfl)
    (by decide) (by decide)).2.2.2.2

set_option maxRecDepth 8000 in
/-- Counterexample to C5 as stated: with a stored record whose status
field is present but empty, the handler does not return the already
handled view — it proceeds to the accepted outcome and writes to the
store. -/
theorem already_handled_requires_truthy_status_counterexample :
    (handle_appointment_response "hackwave2025"
      [("abc123def456", { sampleData with status := some "" })]
      (generate_appointment_token "hackwave2025" sampleData 0)
      (some "accept") 5 none).1.status = "accepted" ∧
    (handle_appointment_response "hackwave2025"
      [("abc123def456", { sampleData with status := some "" })]
      (generate_appointment_token "hackwave2025" sampleData 0)
      (some "accept") 5 none).2.1 ≠
      [("abc123def456", { sampleData with status := some "" })] := by
  constructor
  · decide
  · decide

/-- C5 amended: before persisting, the handler re-loads the record for
the id of the token; an existing stored record is treated as already
handled — with the stored record returned and no write — exactly when
its status field is truthy (present and non-empty); a stored record with
an absent or empty status is overwritten instead. -/
theorem already_handled_iff_truthy_status (secret : String) (p r : AppointmentData)
    (i : String) (t now : Nat) (store : Store) (a : String) (smtp : Option String)
    (hid : p.id = some i) (hne : i.isEmpty = false)
    (hload : storeLoad store i = some r)
    (ha : a = "accept" ∨ a = "reject") (hage : now - t ≤ 3600) :
    let out := handle_appointment_response secret store
      (generate_appointment_token secret p t) (some a) now smtp
    (pyTruthy r.status = true →
        out.1.status = "already_handled" ∧ out.1.appointment = some r ∧
        out.2.1 = store) ∧
    (pyTruthy r.status = false →
        out.2.1 =
          (i, { p with status := some a, response_time := some now }) :: store) := by
  intro out
  constructor
  · intro hstat
    have h := handler_already_run secret store p r i t now smtp a hid hne hload
      hstat ha hage
    rw [show out = _ from h]
    exact ⟨rfl, rfl, rfl⟩
  · intro hstat
    exact handler_overwrite_store secret store p r i t now smtp a hid hne hload
      hstat ha hage

/-- Witness for the amended C5: a stored record with status accept makes
a later reject return the already handled view. -/
theorem already_handled_iff_truthy_status_witness :
    (handle_appointment_response "hackwave2025"
      [("abc123def456", { sampleData with status := some "accept", response_time := some 5 })]
      (generate_appointment_token "hackwave2025" sampleData 0)
      (some "reject") 10 none).1.status = "already_handled" :=
  ((already_handled_iff_truthy_status "hackwave2025" sampleData
    { sampleData with status := some "accept", response_time := some 5 }
    "abc123def456" 0 10
    [("abc123def456", { sampleData with status := some "accept", response_time := some 5 })]
    "reject" none rfl (by decide) rfl (Or.inr rfl) (by decide)).1 (by decide)).1

/-- C7: when the state transition has been persisted and the patient
notification then fails, the stored record keeps its new status — no
rollback — and the outcome view message reports the notification
failure. -/
theorem notification_failure_keeps_transition (secret : String)
    (p : AppointmentData) (i : String) (t now : Nat) (store : Store)
    (a : String) (err : String)
    (hid : p.id = some i) (hne : i.isEmpty = false)
    (hfresh : storeLoad store i = none)
    (ha : a = "accept" ∨ a = "reject")
    (hage : now - t ≤ 3600) :
    let out := handle_appointment_response secret store
      (generate_appointment_token secret p t) (some a) now (some err)
    storeLoad out.2.1 i =
      some { p with status := some a, response_time := some now } ∧
    out.1.status = (if a = "accept" then "accepted" else "rejected") ∧
    out.1.message = some ((if a = "accept"
        then "Appointment accepted, but failed to notify patient: "
        else "Appointment declined, but failed to notify patient: ")
      ++ ("Failed to send email: " ++ err)) := by
  have hver := verify_generate_of_age_le secret p t 3600 now hage
  rcases ha with ha | ha <;> subst ha <;>
    simp +decide [handle_appointment_response, hver, hid, hne, hfresh, pyTruthy,
      save_appointment_data, send_patient_confirmation_email,
      send_patient_rejection_email, send_email_with_attachments, storeLoad]

/-- Witness for C7: an accept whose patient notification raises leaves
the stored status at accept. -/
theorem notification_failure_keeps_transition_witness :
    storeLoad (handle_appointment_response "hackwave2025" []
      (generate_appointment_token "hackwave2025" sampleData 0)
      (some "accept") 5 (some "SMTP down")).2.1 "abc123def456" =
      some { sampleData with status := some "accept", response_time := some 5 } :=
  (notification_failure_keeps_transition "hackwave2025" sampleData "abc123def456"
    0 5 [] "accept" "SMTP down" rfl (by decide) rfl (Or.inl rfl) (by decide)).1

/-- The attachment loop emits exactly one effect per attachment. -/
theorem processAttachments_eq_map (fs : List String) :
    ∀ l : List Attachment, processAttachments fs l = l.map (attachmentStep fs) := by
  intro l
  induction l with
  | nil => simp [processAttachments]
  | cons a rest ih =>
      cases hap : a.path with
      | none => simp [processAttachments, attachmentStep, hap, ih]
      | some p =>
          by_cases hc : p.isEmpty = true ∨ p ∉ fs <;>
            simp [processAttachments, attachmentStep, hap, ih, hc]

/-- The attachment loop never writes the appointment store. -/
theorem storeWrite_not_in_processAttachments (fs : List String) :
    ∀ l : List Attachment, Effect.storeWrite ∉ processAttachments fs l := by
  intro l
  induction l with
  | nil => simp [processAttachments]
  | cons a rest ih =>
      cases hap : a.path with
      | none => simp [processAttachments, hap, ih]
      | some p =>
          by_cases hc : p.isEmpty = true ∨ p ∉ fs <;>
            simp [processAttachments, hap, ih, hc]

/-- The notification dispatcher never writes the appointment store. -/
theorem storeWrite_not_in_send_email (fs : List String) (smtp : Option String)
    (s pw r subj body : String) (atts : Option (List Attachment)) :
    Effect.storeWrite ∉
      (send_email_with_attachments fs smtp s pw r subj body atts).2 := by
  cases atts <;> cases smtp <;>
    simp [send_email_with_attachments, storeWrite_not_in_processAttachments]

/-- The doctor request sender never writes the appointment store. -/
theorem storeWrite_not_in_send_doctor (secret : String) (fs : List String)
    (smtp : Option String) (now : Nat)
    (de pe st ss ml : String) (atts : Option (List Attachment))
    (ps as sd : Option String) :
    Effect.storeWrite ∉
      (send_doctor_appointment_request secret fs smtp now de pe st ss ml atts
        ps as sd).2 := by
  cases hf : DOCTORS.find? (fun d => d.email = de) with
  | none => simp [send_doctor_appointment_request, hf]
  | some d => simp [send_doctor_appointment_request, hf, storeWrite_not_in_send_email]

/-- C6: the scheduling orchestrator performs no write to the appointment
store on any path — the calendar attempt, the doctor lookup and the
doctor notification leave the store untouched — so a request that never
receives a response creates no record; only the response handler writes
records. -/
theorem orchestrator_writes_no_record
    (service : Option (Except String (Option String)))
    (secret : String) (fs : List String) (smtp : Option String) (now : Nat)
    (scheduled_time doctor_email patient_email description : String)
    (attachments : Option (List Attachment)) :
    Effect.storeWrite ∉
      (schedule_meet_with_notification service secret fs smtp now scheduled_time
        doctor_email patient_email description attachments).2 := by
  by_cases hde : doctor_email.isEmpty <;>
    rcases service with _ | e | l <;>
      simp [schedule_meet_with_notification, hde, storeWrite_not_in_send_doctor]

/-- Counterexample to C8 as stated: when the calendar integration is
unavailable (no service), the orchestrator reports success true — not
the success false the claim requires for any calendar-link failure. -/
theorem calendar_unavailable_reports_success_counterexample :
    (schedule_meet_with_notification none "hackwave2025" [] none 0
      "2025-01-01 10:00" "likhith.b.polavaram@gmail.com" "patient@example.com"
      "stomach pain" none).1.success = true := by
  simp [schedule_meet_with_notification]

/-- The notification dispatcher always attempts the SMTP send to the
recipient. -/
theorem emailSend_in_send_email (fs : List String) (smtp : Option String)
    (s pw r subj body : String) (atts : Option (List Attachment)) :
    Effect.emailSend r ∈ (send_email_with_attachments fs smtp s pw r subj body atts).2 := by
  cases atts <;> cases smtp <;> simp [send_email_with_attachments]

/-- C8 amended: when calendar event creation raises, the result carries
the fixed placeholder link and success false while the doctor
notification is still attempted; but when the integration is merely
unavailable, the placeholder link is used with success true (the success
flag reflects only an exception during event creation), again with the
doctor notification attempted. Notification requires a non-empty doctor
email that matches the directory. -/
theorem calendar_failure_fallback (secret : String) (fs : List String)
    (smtp : Option String) (now : Nat)
    (scheduled_time doctor_email patient_email description : String)
    (attachments : Option (List Attachment)) (e : String)
    (hne : doctor_email.isEmpty = false)
    (hfound : (DOCTORS.find? (fun d => d.email = doctor_email)).isSome = true) :
    (schedule_meet_with_notification (some (Except.error e)) secret fs smtp
      now scheduled_time doctor_email patient_email description attachments).1.success
        = false ∧
    (schedule_meet_with_notification (some (Except.error e)) secret fs smtp
      now scheduled_time doctor_email patient_email description attachments).1.meet_link
        = "https://meet.google.com/abc-defg-hij" ∧
    Effect.emailSend doctor_email ∈
      (schedule_meet_with_notification (some (Except.error e)) secret fs smtp
        now scheduled_time doctor_email patient_email description attachments).2 ∧
    (schedule_meet_with_notification none secret fs smtp
      now scheduled_time doctor_email patient_email description attachments).1.success
        = true ∧
    (schedule_meet_with_notification none secret fs smtp
      now scheduled_time doctor_email patient_email description attachments).1.meet_link
        = "https://meet.google.com/abc-defg-hij" ∧
    Effect.emailSend doctor_email ∈
      (schedule_meet_with_notification none secret fs smtp
        now scheduled_time doctor_email patient_email description attachments).2 := by
  obtain ⟨d, hd⟩ := Option.isSome_iff_exists.mp hfound
  refine ⟨rfl, rfl, ?_, rfl, rfl, ?_⟩ <;>
    simp [schedule_meet_with_notification, hne, send_doctor_appointment_request, hd,
      emailSend_in_send_email]

set_option maxRecDepth 8000 in
/-- Witness for the amended C8: a raising calendar insert yields success
false at a concrete doctor. -/
theorem calendar_failure_fallback_witness :
    (schedule_meet_with_notification (some (Except.error "boom")) "hackwave2025" []
      none 0 "2025-01-01 10:00" "likhith.b.polavaram@gmail.com"
      "patient@example.com" "stomach pain" none).1.success = false :=
  (calendar_failure_fallback "hackwave2025" [] none 0 "2025-01-01 10:00"
    "likhith.b.polavaram@gmail.com" "patient@example.com" "stomach pain" none
    "boom" (by decide) (by decide)).1

/-- C9: for every call to the notification dispatcher with an attachment
list, the effect trace carries exactly one step per attachment followed
by the SMTP send; a step is a logged warning exactly for an attachment
whose path is absent, falsy, or not on disk, and an attach under the
declared filename otherwise; and the send returns success true when the
SMTP delivery itself succeeds, regardless of skipped attachments. -/
theorem missing_attachments_skipped_send_succeeds (fs : List String)
    (smtp : Option String) (sender pw recipient subject body : String)
    (atts : List Attachment) (hsmtp : smtp = none) :
    let out := send_email_with_attachments fs smtp sender pw recipient subject body
      (some atts)
    out.1.success = true ∧
    out.2 = atts.map (attachmentStep fs) ++ [Effect.emailSend recipient] ∧
    (∀ a ∈ atts, attachmentMissing fs a = true →
        attachmentStep fs a = Effect.warnMissing a.path) ∧
    (∀ a ∈ atts, attachmentMissing fs a = false →
        ∃ p, a.path = some p ∧
          attachmentStep fs a = Effect.attached (declaredName a p)) := by
  subst hsmtp
  refine ⟨by simp [send_email_with_attachments],
    by simp [send_email_with_attachments, processAttachments_eq_map], ?_, ?_⟩
  · intro a _ hm
    cases hap : a.path with
    | none => simp [attachmentStep, hap]
    | some p =>
        have hc : p.isEmpty = true ∨ p ∉ fs := by
          simpa [attachmentMissing, hap] using hm
        rcases hc with hc | hc <;> simp [attachmentStep, hap, hc]
  · intro a _ hm
    cases hap : a.path with
    | none => simp [attachmentMissing, hap] at hm
    | some p =>
        have hc : ¬(p.isEmpty = true ∨ p ∉ fs) := by
          simpa [attachmentMissing, hap] using hm
        exact ⟨p, rfl, by simp [attachmentStep, hap, hc]⟩

/-- Witness for C9: one missing path among two existing ones still
yields success true. -/
theorem missing_attachments_skipped_send_succeeds_witness :
    (send_email_with_attachments ["uploads/a.pdf", "uploads/b.pdf"] none
      "likhith.b.polavaram@gmail.com" "pw" "doctor@example.com" "subject" "body"
      (some [⟨some "uploads/a.pdf", some "a.pdf"⟩,
             ⟨some "uploads/missing.pdf", none⟩,
             ⟨some "uploads/b.pdf", none⟩])).1.success = true :=
  (missing_attachments_skipped_send_succeeds ["uploads/a.pdf", "uploads/b.pdf"]
    none "likhith.b.polavaram@gmail.com" "pw" "doctor@example.com" "subject" "body"
    [⟨some "uploads/a.pdf", some "a.pdf"⟩,
     ⟨some "uploads/missing.pdf", none⟩,
     ⟨some "uploads/b.pdf", none⟩] rfl).1

/-- C10: every record the handler persists carries the literal inbound
action as its status — necessarily accept or reject, hence truthy and
never unset or empty — and the response time stamped at persistence,
keyed by its own truthy id; every other run leaves the store unchanged.
Separately, saving a payload without a truthy id is a no-op returning
false. -/
theorem persisted_status_is_action_and_truthy :
    (∀ (secret : String) (store : Store) (tok : Token) (action : Option String)
        (now : Nat) (smtp : Option String),
        (handle_appointment_response secret store tok action now smtp).2.1 = store ∨
        ∃ i r, (handle_appointment_response secret store tok action now smtp).2.1 =
            (i, r) :: store ∧
          r.status = action ∧
          (action = some "accept" ∨ action = some "reject") ∧
          pyTruthy r.status = true ∧ r.response_time = some now ∧
          r.id = some i ∧ i.isEmpty = false) ∧
    (∀ (store : Store) (d : AppointmentData),
        pyTruthy d.id = false → save_appointment_data store d = (store, false)) := by
  constructor
  · intro secret store tok action now smtp
    by_cases hact : action = some "accept" ∨ action = some "reject"
    · rcases hv : verify_appointment_token secret tok 3600 now with _ | p
      · left; simp [handle_appointment_response, hact, hv]
      · rcases hpid : p.id with _ | i
        · left
          simp [handle_appointment_response, hact, hv, hpid, save_appointment_data]
        · by_cases hie : i.isEmpty
          · left
            simp [handle_appointment_response, hact, hv, hpid, hie,
              save_appointment_data]
          · rcases hl : storeLoad store i with _ | r
            · right
              refine ⟨i, { p with status := action, response_time := some now }, ?_,
                rfl, hact, ?_, rfl, by rw [hpid], by simpa using hie⟩
              · simp [handle_appointment_response, hact, hv, hpid, hie, hl,
                  save_appointment_data]
              · rcases hact with h | h <;> subst h <;> simp +decide [pyTruthy]
            · by_cases hst : pyTruthy r.status
              · left
                simp [handle_appointment_response, hact, hv, hpid, hie, hl, hst]
              · right
                refine ⟨i, { p with status := action, response_time := some now }, ?_,
                  rfl, hact, ?_, rfl, by rw [hpid], by simpa using hie⟩
                · simp [handle_appointment_response, hact, hv, hpid, hie, hl, hst,
                    save_appointment_data]
                · rcases hact with h | h <;> subst h <;> simp +decide [pyTruthy]
    · left; simp [handle_appointment_response, hact]
  · intro store d h
    rcases hd : d.id with _ | i
    · simp [save_appointment_data, hd]
    · have : i.isEmpty := by simpa [pyTruthy, hd] using h
      simp [save_appointment_data, hd, this]

/-- Witness for C10: saving a payload without an id writes nothing and
returns false. -/
theorem persisted_status_is_action_and_truthy_witness :
    save_appointment_data [] { sampleData with id := none } = ([], false) :=
  persisted_status_is_action_and_truthy.2 [] { sampleData with id := none }
    (by decide)
